import Mathlib

/-!
# Verification of `framework/wazuh/core/config/models/ssl_config.py`

Shallow embedding of the three SSL configuration models (`SSLConfig`,
`IndexerSSLConfig`, `APISSLConfig`) and the CA-bundle assembler
(`IndexerSSLConfig.create_ca_bundle`), together with theorems settling the
specification claims about them.

The filesystem is modelled explicitly as an association list from paths to
file contents, together with read/write permission deny-lists, so that the
side effect of bundle assembly (writing a file at a fixed path) is visible
in the model.  Pydantic model construction is embedded as a function from a
raw-field record and a filesystem state to a new filesystem state paired
with either the validated record or an error.  Field validators run in
field-declaration order and `ValueError`-style failures are aggregated into
a list of field errors (pydantic reports all field failures of one load),
while a `WazuhError` raised inside a validator propagates immediately.
-/

set_option autoImplicit false

namespace WazuhSSL

/-! ## Filesystem model -/

/-- A filesystem state: an association list from path to file content
(first binding for a path wins, so consing a binding overwrites), plus
deny-lists of paths whose open-for-read / open-for-write fails with a
permission error. -/
structure FileSystem where
  files : List (String × String)
  readDenied : List String := []
  writeDenied : List String := []
  deriving Repr, DecidableEq

/-- Content of the file at `p`, or `none` when no such file exists. -/
def readFileRaw : List (String × String) → String → Option String
  | [], _ => none
  | (q, c) :: rest, p => if p = q then some c else readFileRaw rest p

/-- Content of the file at `p` in filesystem `fs` (ignoring permissions). -/
def FileSystem.content (fs : FileSystem) (p : String) : Option String :=
  readFileRaw fs.files p

/-- `os.path.isfile`: the path denotes an existing file. -/
def FileSystem.isfile (fs : FileSystem) (p : String) : Bool :=
  (fs.content p).isSome

/-- Write (create or overwrite) the file at `p` with content `c`. -/
def FileSystem.setFile (fs : FileSystem) (p : String) (c : String) : FileSystem :=
  { fs with files := (p, c) :: fs.files }

/-- The message of the `IOError` raised when opening `p` fails. -/
def ioErrorMessage (fs : FileSystem) (p : String) : String :=
  if (fs.content p).isNone then "[Errno 2] No such file or directory: " ++ p
  else "[Errno 13] Permission denied: " ++ p

/-- `open(p, 'r')` followed by `.read()`: returns the content, or the
`IOError` message when the file is missing or reading is denied. -/
def FileSystem.openRead (fs : FileSystem) (p : String) : Except String String :=
  match fs.content p with
  | none => .error (ioErrorMessage fs p)
  | some c => if p ∈ fs.readDenied then .error (ioErrorMessage fs p) else .ok c

/-! ## External collaborators (not under `src/`) -/

/-- Modelled from the spec: `WAZUH_INDEXER_CA_BUNDLE` (imported from
`wazuh.core.common`, which is outside the sources) is "a fixed filesystem
path (a system-wide constant, e.g. an indexer CA bundle location)".  Its
exact value is irrelevant; it is a module-level constant. -/
def WAZUH_INDEXER_CA_BUNDLE : String :=
  "/etc/wazuh-server/certs/indexer-ca-bundle.pem"

/-- A field-scoped validation error (`ValueError` raised by a field
validator, or a constraint failure), identifying the field name and a
detail string (for file checks, the offending path). -/
structure FieldError where
  field : String
  detail : String
  deriving Repr, DecidableEq

/-- A `WazuhError`: structured error keyed by a numeric code and carrying a
human-readable detail string (`wazuh.core.exception`, outside the
sources). -/
structure WazuhError where
  code : Nat
  message : String
  deriving Repr, DecidableEq

/-- Modelled from the spec: `ValidateFilePathMixin._validate_file_path`
(defined in `models/base.py`, which is outside the sources).  Spec §4.1:
"given a path string and the logical field name it belongs to, confirm the
path denotes an existing ... file on the local filesystem.  On failure,
fails with a `ConfigValidationError` identifying the field name and the
offending path."  Readability is not checked at validation time: spec §7
lists "permission error" at read time as a bundle-assembly failure mode
occurring after the check passed. -/
def validate_file_path (fs : FileSystem) (path field_name : String) :
    List FieldError :=
  if fs.isfile path then [] else [⟨field_name, path⟩]

/-- Modelled from the spec: `assign_wazuh_ownership` (from
`wazuh.core.utils`, outside the sources) reassigns ownership of the written
file to the service identity.  Ownership is outside the filesystem-content
model, so it is a no-op here; its possible failure is not needed by any
claim. -/
def assign_wazuh_ownership (fs : FileSystem) : FileSystem := fs

/-- A model-construction error: either the aggregated list of field
validation errors of the load, or a `WazuhError` that propagated out of a
validator. -/
inductive ConstructionError where
  | fields : List FieldError → ConstructionError
  | wazuh : WazuhError → ConstructionError
  deriving Repr, DecidableEq

/-! ## `SSLProtocol` -/

/-- Enum representing supported SSL/TLS protocols. -/
inductive SSLProtocol where
  | tls
  | tls_v1
  | tls_v1_1
  | tls_v1_2
  | auto
  deriving Repr, DecidableEq

/-- The string value of each `SSLProtocol` member. -/
def SSLProtocol.value : SSLProtocol → String
  | .tls => "TLS"
  | .tls_v1 => "TLSv1"
  | .tls_v1_1 => "TLSv1.1"
  | .tls_v1_2 => "TLSv1.2"
  | .auto => "auto"

/-- Pydantic coercion of a raw string into the `str`-valued enum
`SSLProtocol`: the string must equal one of the member values exactly. -/
def SSLProtocol.parse (s : String) : Option SSLProtocol :=
  if s = "TLS" then some .tls
  else if s = "TLSv1" then some .tls_v1
  else if s = "TLSv1.1" then some .tls_v1_1
  else if s = "TLSv1.2" then some .tls_v1_2
  else if s = "auto" then some .auto
  else none

/-! ## `SSLConfig` (server SSL settings) -/

/-- Raw field values supplied to an `SSLConfig` construction, with the
source defaults applied. -/
structure RawSSLConfig where
  key : String
  cert : String
  ca : String
  keyfile_password : String := ""
  deriving Repr, DecidableEq

/-- Configuration for SSL settings specific to the server. -/
structure SSLConfig where
  key : String
  cert : String
  ca : String
  keyfile_password : String
  deriving Repr, DecidableEq

/-- The `validate_ssl_files` validator of `SSLConfig`, registered for
`key`, `cert` and `ca`: unconditionally `cls._validate_file_path(path,
info.field_name)`. -/
def SSLConfig.validate_ssl_files (fs : FileSystem) (path field_name : String) :
    List FieldError :=
  validate_file_path fs path field_name

/-- All field errors of one `SSLConfig` load, in field-declaration order
(`key`, `cert`, `ca`; `keyfile_password` has no validator). -/
def SSLConfig.fieldErrors (fs : FileSystem) (raw : RawSSLConfig) :
    List FieldError :=
  SSLConfig.validate_ssl_files fs raw.key "key"
    ++ SSLConfig.validate_ssl_files fs raw.cert "cert"
    ++ SSLConfig.validate_ssl_files fs raw.ca "ca"

/-- Construct (validate) an `SSLConfig` from raw fields.  No validator of
this model touches the filesystem, so only the result is returned. -/
def SSLConfig.construct (fs : FileSystem) (raw : RawSSLConfig) :
    Except ConstructionError SSLConfig :=
  match SSLConfig.fieldErrors fs raw with
  | [] => .ok ⟨raw.key, raw.cert, raw.ca, raw.keyfile_password⟩
  | errs => .error (.fields errs)

/-! ## `IndexerSSLConfig` -/

/-- Raw field values supplied to an `IndexerSSLConfig` construction, with
the source defaults applied. -/
structure RawIndexerSSLConfig where
  use_ssl : Bool := false
  key : String := ""
  certificate : String := ""
  certificate_authorities : List String := [""]
  verify_certificates : Bool := true
  certificate_authorities_bundle : String := WAZUH_INDEXER_CA_BUNDLE
  deriving Repr, DecidableEq

/-- Configuration for SSL settings specific to the indexer. -/
structure IndexerSSLConfig where
  use_ssl : Bool
  key : String
  certificate : String
  certificate_authorities : List String
  verify_certificates : Bool
  certificate_authorities_bundle : String
  deriving Repr, DecidableEq

/-- The `validate_ssl_files` validator of `IndexerSSLConfig`, registered
for `key` and `certificate`: the file check runs only when the
already-validated `use_ssl` is true. -/
def IndexerSSLConfig.validate_ssl_files (fs : FileSystem) (use_ssl : Bool)
    (path field_name : String) : List FieldError :=
  if use_ssl then validate_file_path fs path field_name else []

/-- The body of the `with open(WAZUH_INDEXER_CA_BUNDLE, 'w')` block: read
each CA file in list order, appending its content to the (buffered) bundle
output.  `buf` is the data written so far but not yet flushed; on the first
read failure the block is left, the file object is closed (flushing `buf`)
and the `IOError` message is returned.  On success the final content is the
whole buffer. -/
def bundleLoop (fs : FileSystem) (buf : String) :
    List String → FileSystem × Option WazuhError
  | [] => (assign_wazuh_ownership (fs.setFile WAZUH_INDEXER_CA_BUNDLE buf), none)
  | p :: rest =>
    match fs.openRead p with
    | .error msg => (fs.setFile WAZUH_INDEXER_CA_BUNDLE buf, some ⟨1006, msg⟩)
    | .ok c => bundleLoop fs (buf ++ c) rest

/-- `IndexerSSLConfig.create_ca_bundle`: merge the CA files into a single
bundle file at `WAZUH_INDEXER_CA_BUNDLE`.  Opening the bundle with mode
`'w'` truncates it to empty before any read happens (so a listed CA path
equal to the bundle path reads the truncated file); any `IOError` while
opening or reading an input or opening the output surfaces as
`WazuhError(1006, str(e))`. -/
def IndexerSSLConfig.create_ca_bundle (fs : FileSystem)
    (file_paths : List String) : FileSystem × Option WazuhError :=
  if WAZUH_INDEXER_CA_BUNDLE ∈ fs.writeDenied then
    (fs, some ⟨1006, "[Errno 13] Permission denied: " ++ WAZUH_INDEXER_CA_BUNDLE⟩)
  else
    bundleLoop (fs.setFile WAZUH_INDEXER_CA_BUNDLE "") "" file_paths

/-- The `validate_ca_files` validator of `IndexerSSLConfig`: when
`use_ssl` is true, check every path in list order and, if all exist, call
`create_ca_bundle`; the first missing path raises a `ValueError` before any
bundle write.  When `use_ssl` is false nothing runs. -/
def IndexerSSLConfig.validate_ca_files (fs : FileSystem) (use_ssl : Bool)
    (paths : List String) :
    FileSystem × List FieldError × Option WazuhError :=
  if use_ssl then
    match paths.find? (fun p => !fs.isfile p) with
    | some p => (fs, [⟨"certificate_authorities", p⟩], none)
    | none =>
      let (fs', err) := IndexerSSLConfig.create_ca_bundle fs paths
      (fs', [], err)
  else (fs, [], none)

/-- Construct (validate) an `IndexerSSLConfig` from raw fields.  Validators
run in field-declaration order (`use_ssl` resolves first and is visible to
later validators through `info.data`).  The `min_length=1` constraint on
`certificate_authorities` is checked before its validator runs; when it
fails the validator (and hence bundle assembly) is skipped.  Field-level
`ValueError`s are aggregated; a `WazuhError` raised by `create_ca_bundle`
propagates out of the construction immediately. -/
def IndexerSSLConfig.construct (fs : FileSystem) (raw : RawIndexerSSLConfig) :
    FileSystem × Except ConstructionError IndexerSSLConfig :=
  let keyErrs := IndexerSSLConfig.validate_ssl_files fs raw.use_ssl raw.key "key"
  let certErrs :=
    IndexerSSLConfig.validate_ssl_files fs raw.use_ssl raw.certificate "certificate"
  if raw.certificate_authorities.length < 1 then
    (fs, .error (.fields (keyErrs ++ certErrs
      ++ [⟨"certificate_authorities", "List should have at least 1 item"⟩])))
  else
    match IndexerSSLConfig.validate_ca_files fs raw.use_ssl
        raw.certificate_authorities with
    | (fs', _, some werr) => (fs', .error (.wazuh werr))
    | (fs', caErrs, none) =>
      if keyErrs ++ certErrs ++ caErrs = [] then
        (fs', .ok ⟨raw.use_ssl, raw.key, raw.certificate,
          raw.certificate_authorities, raw.verify_certificates,
          raw.certificate_authorities_bundle⟩)
      else (fs', .error (.fields (keyErrs ++ certErrs ++ caErrs)))

/-! ## `APISSLConfig` -/

/-- Raw field values supplied to an `APISSLConfig` construction, with the
source defaults applied.  `ssl_protocol` arrives as a raw string to be
coerced into the enum. -/
structure RawAPISSLConfig where
  key : String
  cert : String
  use_ca : Bool := false
  ca : String := ""
  ssl_protocol : String := "auto"
  ssl_ciphers : String := ""
  deriving Repr, DecidableEq

/-- Configuration for API SSL settings. -/
structure APISSLConfig where
  key : String
  cert : String
  use_ca : Bool
  ca : String
  ssl_protocol : SSLProtocol
  ssl_ciphers : String
  deriving Repr, DecidableEq

/-- The `validate_ca_file` validator of `APISSLConfig`: the file check on
`ca` runs only when the already-validated `use_ca` is true. -/
def APISSLConfig.validate_ca_file (fs : FileSystem) (use_ca : Bool)
    (path : String) : List FieldError :=
  if use_ca then validate_file_path fs path "ca" else []

/-- Construct (validate) an `APISSLConfig` from raw fields.  The source
declares no validator for `key` or `cert` (only `ca` has one), so those
paths are accepted without any existence check; `ssl_protocol` must coerce
into the enum; `ssl_ciphers` is accepted unvalidated.  Errors are reported
in field-declaration order. -/
def APISSLConfig.construct (fs : FileSystem) (raw : RawAPISSLConfig) :
    Except ConstructionError APISSLConfig :=
  let caErrs := APISSLConfig.validate_ca_file fs raw.use_ca raw.ca
  match SSLProtocol.parse raw.ssl_protocol with
  | none =>
    .error (.fields (caErrs
      ++ [⟨"ssl_protocol", raw.ssl_protocol⟩]))
  | some proto =>
    match caErrs with
    | [] => .ok ⟨raw.key, raw.cert, raw.use_ca, raw.ca, proto, raw.ssl_ciphers⟩
    | errs => .error (.fields errs)

/-! ## Derived notions and helper lemmas -/

/-- A path both exists and may be opened for reading. -/
def FileSystem.readable (fs : FileSystem) (p : String) : Bool :=
  (fs.content p).isSome && !(decide (p ∈ fs.readDenied))

/-- Concatenation, in list order and with no separators, of the contents of
the files at `paths` (missing files contribute `""`; only applied when all
paths exist). -/
def concatContents (fs : FileSystem) : List String → String
  | [] => ""
  | p :: rest => (fs.content p).getD "" ++ concatContents fs rest

theorem string_append_assoc (a b c : String) :
    (a ++ b) ++ c = a ++ (b ++ c) := by
  rcases a with ⟨a⟩; rcases b with ⟨b⟩; rcases c with ⟨c⟩
  show String.mk (a ++ b ++ c) = String.mk (a ++ (b ++ c))
  rw [List.append_assoc]

@[simp] theorem content_setFile (fs : FileSystem) (p c q : String) :
    (fs.setFile p c).content q = if q = p then some c else fs.content q := by
  simp [FileSystem.setFile, FileSystem.content, readFileRaw]

theorem content_setFile_self (fs : FileSystem) (p c : String) :
    (fs.setFile p c).content p = some c := by simp

theorem content_setFile_ne (fs : FileSystem) (p c q : String) (h : q ≠ p) :
    (fs.setFile p c).content q = fs.content q := by simp [h]

theorem openRead_of_readable (fs : FileSystem) (p : String)
    (h : fs.readable p = true) :
    fs.openRead p = .ok ((fs.content p).getD "") := by
  unfold FileSystem.readable at h
  rcases hc : fs.content p with _ | c <;> rw [hc] at h
  · simp at h
  · simp only [Option.isSome_some, Bool.true_and, Bool.not_eq_true'] at h
    rw [decide_eq_false_iff_not] at h
    simp [FileSystem.openRead, hc, h]

theorem openRead_ok_readable (fs : FileSystem) (p c : String)
    (h : fs.openRead p = .ok c) : fs.readable p = true := by
  unfold FileSystem.openRead at h
  rcases hc : fs.content p with _ | d <;> rw [hc] at h
  · simp at h
  · by_cases hd : p ∈ fs.readDenied
    · simp [hd] at h
    · simp [FileSystem.readable, hc, hd]

theorem openRead_error_message (fs : FileSystem) (p m : String)
    (h : fs.openRead p = .error m) : m = ioErrorMessage fs p := by
  unfold FileSystem.openRead at h
  rcases hc : fs.content p with _ | d <;> rw [hc] at h
  · simp at h; exact h.symm
  · by_cases hd : p ∈ fs.readDenied
    · simp [hd] at h; exact h.symm
    · simp [hd] at h

theorem readable_setFile (fs : FileSystem) (w c p : String)
    (hex : fs.isfile p = true) (hrd : p ∉ fs.readDenied) :
    (fs.setFile w c).readable p = true := by
  unfold FileSystem.readable
  have hd : (fs.setFile w c).readDenied = fs.readDenied := rfl
  rw [hd, content_setFile]
  by_cases hp : p = w
  · subst hp; simp [hrd]
  · rw [if_neg hp]
    unfold FileSystem.isfile at hex
    simp [hrd, hex]

theorem concatContents_congr (fs₁ fs₂ : FileSystem) (paths : List String)
    (h : ∀ p ∈ paths, fs₁.content p = fs₂.content p) :
    concatContents fs₁ paths = concatContents fs₂ paths := by
  induction paths with
  | nil => rfl
  | cons p rest ih =>
    rw [concatContents, concatContents, h p (by simp),
      ih (fun q hq => h q (by simp [hq]))]

theorem bundleLoop_ok (paths : List String) : ∀ (fs : FileSystem) (buf : String),
    (∀ p ∈ paths, fs.readable p = true) →
    bundleLoop fs buf paths =
      (fs.setFile WAZUH_INDEXER_CA_BUNDLE (buf ++ concatContents fs paths),
        none) := by
  induction paths with
  | nil =>
    intro fs buf _
    simp [bundleLoop, concatContents, assign_wazuh_ownership, String.append_empty]
  | cons p rest ih =>
    intro fs buf h
    rw [bundleLoop, openRead_of_readable fs p (h p (by simp))]
    simp only []
    rw [ih fs (buf ++ (fs.content p).getD "") (fun q hq => h q (by simp [hq])),
      concatContents, string_append_assoc]

theorem bundleLoop_fst_content (paths : List String) :
    ∀ (fs : FileSystem) (buf p : String), p ≠ WAZUH_INDEXER_CA_BUNDLE →
    (bundleLoop fs buf paths).1.content p = fs.content p := by
  induction paths with
  | nil =>
    intro fs buf p hp
    simp [bundleLoop, assign_wazuh_ownership, hp]
  | cons q rest ih =>
    intro fs buf p hp
    rw [bundleLoop]
    rcases ho : fs.openRead q with m | c
    · simp [hp]
    · simpa using ih fs (buf ++ c) p hp

theorem bundleLoop_error (paths : List String) :
    ∀ (fs : FileSystem) (buf : String) (e : WazuhError),
    (bundleLoop fs buf paths).2 = some e →
    e.code = 1006 ∧ ∃ p ∈ paths, e.message = ioErrorMessage fs p := by
  induction paths with
  | nil => intro fs buf e h; exact absurd h (by simp [bundleLoop])
  | cons q rest ih =>
    intro fs buf e h
    rw [bundleLoop] at h
    rcases ho : fs.openRead q with m | c <;> rw [ho] at h
    · simp only [Option.some.injEq] at h
      refine ⟨by rw [← h], q, by simp, ?_⟩
      rw [← h]
      exact openRead_error_message fs q m ho
    · rcases ih fs (buf ++ c) e (by simpa using h) with ⟨h1, p, hp, h2⟩
      exact ⟨h1, p, by simp [hp], h2⟩

theorem bundleLoop_fails (paths : List String) :
    ∀ (fs : FileSystem) (buf : String),
    (∃ p ∈ paths, fs.readable p = false) →
    ((bundleLoop fs buf paths).2).isSome = true := by
  induction paths with
  | nil => intro fs buf h; exact absurd h (by simp)
  | cons q rest ih =>
    intro fs buf h
    rw [bundleLoop]
    rcases ho : fs.openRead q with m | c
    · simp
    · rcases h with ⟨p, hp, hr⟩
      rcases List.mem_cons.mp hp with rfl | hp'
      · rw [openRead_ok_readable fs p c ho] at hr
        exact absurd hr (by simp)
      · simpa using ih fs (buf ++ c) ⟨p, hp', hr⟩

theorem create_ca_bundle_ok (fs : FileSystem) (paths : List String)
    (hw : WAZUH_INDEXER_CA_BUNDLE ∉ fs.writeDenied)
    (hr : ∀ p ∈ paths,
      (fs.setFile WAZUH_INDEXER_CA_BUNDLE "").readable p = true) :
    IndexerSSLConfig.create_ca_bundle fs paths =
      ((fs.setFile WAZUH_INDEXER_CA_BUNDLE "").setFile WAZUH_INDEXER_CA_BUNDLE
        (concatContents (fs.setFile WAZUH_INDEXER_CA_BUNDLE "") paths),
        none) := by
  unfold IndexerSSLConfig.create_ca_bundle
  rw [if_neg hw, bundleLoop_ok paths _ "" hr, String.empty_append]

theorem create_ca_bundle_fst_content (fs : FileSystem) (paths : List String)
    (p : String) (hp : p ≠ WAZUH_INDEXER_CA_BUNDLE) :
    (IndexerSSLConfig.create_ca_bundle fs paths).1.content p = fs.content p := by
  unfold IndexerSSLConfig.create_ca_bundle
  by_cases hw : WAZUH_INDEXER_CA_BUNDLE ∈ fs.writeDenied
  · rw [if_pos hw]
  · rw [if_neg hw, bundleLoop_fst_content paths _ "" p hp,
      content_setFile_ne _ _ _ _ hp]

theorem create_ca_bundle_error (fs : FileSystem) (paths : List String)
    (e : WazuhError)
    (h : (IndexerSSLConfig.create_ca_bundle fs paths).2 = some e) :
    e.code = 1006 ∧
      (e.message = "[Errno 13] Permission denied: " ++ WAZUH_INDEXER_CA_BUNDLE ∨
        ∃ p ∈ paths,
          e.message =
            ioErrorMessage (fs.setFile WAZUH_INDEXER_CA_BUNDLE "") p) := by
  unfold IndexerSSLConfig.create_ca_bundle at h
  by_cases hw : WAZUH_INDEXER_CA_BUNDLE ∈ fs.writeDenied
  · rw [if_pos hw] at h
    simp only [Option.some.injEq] at h
    exact ⟨by rw [← h], Or.inl (by rw [← h])⟩
  · rw [if_neg hw] at h
    rcases bundleLoop_error paths _ "" e h with ⟨h1, p, hp, h2⟩
    exact ⟨h1, Or.inr ⟨p, hp, h2⟩⟩

theorem create_ca_bundle_fails (fs : FileSystem) (paths : List String)
    (h : WAZUH_INDEXER_CA_BUNDLE ∈ fs.writeDenied ∨
      ∃ p ∈ paths,
        (fs.setFile WAZUH_INDEXER_CA_BUNDLE "").readable p = false) :
    ((IndexerSSLConfig.create_ca_bundle fs paths).2).isSome = true := by
  unfold IndexerSSLConfig.create_ca_bundle
  by_cases hw : WAZUH_INDEXER_CA_BUNDLE ∈ fs.writeDenied
  · rw [if_pos hw]; rfl
  · rw [if_neg hw]
    rcases h with h | h
    · exact absurd h hw
    · exact bundleLoop_fails paths _ "" h

theorem validate_ca_files_ok (fs : FileSystem) (paths : List String)
    (hex : ∀ p ∈ paths, fs.isfile p = true)
    (hrd : ∀ p ∈ paths, p ∉ fs.readDenied)
    (hw : WAZUH_INDEXER_CA_BUNDLE ∉ fs.writeDenied) :
    IndexerSSLConfig.validate_ca_files fs true paths =
      ((fs.setFile WAZUH_INDEXER_CA_BUNDLE "").setFile WAZUH_INDEXER_CA_BUNDLE
        (concatContents (fs.setFile WAZUH_INDEXER_CA_BUNDLE "") paths),
        [], none) := by
  have hfind : paths.find? (fun p => !fs.isfile p) = none :=
    List.find?_eq_none.mpr (fun p hp => by simp [hex p hp])
  have hread : ∀ p ∈ paths,
      (fs.setFile WAZUH_INDEXER_CA_BUNDLE "").readable p = true :=
    fun p hp =>
      readable_setFile fs WAZUH_INDEXER_CA_BUNDLE "" p (hex p hp) (hrd p hp)
  unfold IndexerSSLConfig.validate_ca_files
  simp [hfind, create_ca_bundle_ok fs paths hw hread]

theorem validate_ca_files_fst_content (fs : FileSystem) (u : Bool)
    (paths : List String) (p : String) (hp : p ≠ WAZUH_INDEXER_CA_BUNDLE) :
    (IndexerSSLConfig.validate_ca_files fs u paths).1.content p =
      fs.content p := by
  unfold IndexerSSLConfig.validate_ca_files
  rcases u with _ | _
  · rfl
  · rcases hf : paths.find? (fun q => !fs.isfile q) with _ | q
    · simp only [if_true, hf]
      rcases hc : IndexerSSLConfig.create_ca_bundle fs paths with ⟨fs', err⟩
      have := create_ca_bundle_fst_content fs paths p hp
      rw [hc] at this
      simpa using this
    · simp [hf]

theorem indexer_construct_fst (fs : FileSystem) (raw : RawIndexerSSLConfig) :
    (IndexerSSLConfig.construct fs raw).1 =
      if raw.certificate_authorities.length < 1 then fs
      else (IndexerSSLConfig.validate_ca_files fs raw.use_ssl
        raw.certificate_authorities).1 := by
  unfold IndexerSSLConfig.construct
  by_cases hlen : raw.certificate_authorities.length < 1
  · simp [hlen]
  · rw [if_neg hlen, if_neg hlen]
    rcases h : IndexerSSLConfig.validate_ca_files fs raw.use_ssl
        raw.certificate_authorities with ⟨fs', caErrs, werr⟩
    rcases werr with _ | w
    · simp only []
      split <;> rfl
    · rfl

@[simp] theorem except_isOk_ok {ε α : Type} (a : α) :
    (Except.ok a : Except ε α).isOk = true := rfl

@[simp] theorem except_isOk_error {ε α : Type} (e : ε) :
    (Except.error e : Except ε α).isOk = false := rfl

theorem parse_isSome_iff (s : String) :
    (SSLProtocol.parse s).isSome = true ↔
      s ∈ ["TLS", "TLSv1", "TLSv1.1", "TLSv1.2", "auto"] := by
  unfold SSLProtocol.parse
  split_ifs <;> simp_all

theorem api_construct_isOk (fs : FileSystem) (raw : RawAPISSLConfig)
    (h : raw.use_ca = false) :
    (APISSLConfig.construct fs raw).isOk =
      (SSLProtocol.parse raw.ssl_protocol).isSome := by
  unfold APISSLConfig.construct APISSLConfig.validate_ca_file
  rw [h]
  rcases hp : SSLProtocol.parse raw.ssl_protocol with _ | pr <;> simp [hp]

theorem server_construct_error_of_mem (fs : FileSystem) (raw : RawSSLConfig)
    (e : FieldError) (h : e ∈ SSLConfig.fieldErrors fs raw) :
    ∃ errs, SSLConfig.construct fs raw = .error (.fields errs) ∧ e ∈ errs := by
  cases hE : SSLConfig.fieldErrors fs raw with
  | nil => rw [hE] at h; exact absurd h (by simp)
  | cons a l =>
    refine ⟨a :: l, ?_, hE ▸ h⟩
    unfold SSLConfig.construct
    rw [hE]

theorem mem_fieldErrors_key (fs : FileSystem) (raw : RawSSLConfig)
    (h : fs.isfile raw.key = false) :
    FieldError.mk "key" raw.key ∈ SSLConfig.fieldErrors fs raw := by
  unfold SSLConfig.fieldErrors SSLConfig.validate_ssl_files validate_file_path
  simp [h]

theorem mem_fieldErrors_cert (fs : FileSystem) (raw : RawSSLConfig)
    (h : fs.isfile raw.cert = false) :
    FieldError.mk "cert" raw.cert ∈ SSLConfig.fieldErrors fs raw := by
  unfold SSLConfig.fieldErrors SSLConfig.validate_ssl_files validate_file_path
  simp [h]

theorem mem_fieldErrors_ca (fs : FileSystem) (raw : RawSSLConfig)
    (h : fs.isfile raw.ca = false) :
    FieldError.mk "ca" raw.ca ∈ SSLConfig.fieldErrors fs raw := by
  unfold SSLConfig.fieldErrors SSLConfig.validate_ssl_files validate_file_path
  simp [h]

/-! ## Fixtures for witnesses and counterexamples -/

/-- The empty filesystem. -/
def fsEmpty : FileSystem := ⟨[], [], []⟩

/-- A filesystem holding three CA files with contents `A`, `B`, `C` and a
key and certificate file. -/
def fsABC : FileSystem :=
  ⟨[("a", "A"), ("b", "B"), ("c", "C"), ("k", "K"), ("crt", "T")], [], []⟩

/-- Indexer input listing the three CA files of `fsABC`. -/
def rawABC : RawIndexerSSLConfig :=
  { use_ssl := true, key := "k", certificate := "crt",
    certificate_authorities := ["a", "b", "c"] }

/-- Indexer input whose middle CA path does not exist in `fsABC`. -/
def rawMissingCA : RawIndexerSSLConfig :=
  { rawABC with certificate_authorities := ["a", "nope", "c"] }

/-- A filesystem in which the fixed bundle path itself is an existing file
with content `X`. -/
def fsAlias : FileSystem :=
  ⟨[(WAZUH_INDEXER_CA_BUNDLE, "X"), ("k", "K"), ("crt", "T")], [], []⟩

/-- Indexer input that lists the fixed bundle path itself as the sole
certificate authority. -/
def rawAlias : RawIndexerSSLConfig :=
  { use_ssl := true, key := "k", certificate := "crt",
    certificate_authorities := [WAZUH_INDEXER_CA_BUNDLE] }

/-! ## Claim theorems -/

/-- C1: the claim says every `APISSLConfig` construction checks `key` and
`cert` for file existence, so a nonexistent key or cert path fails
construction.  The source registers no validator at all for `key` and
`cert` (only `ca` has `validate_ca_file`), so construction succeeds on a
filesystem where neither path exists: the code contradicts the documented
algorithm. -/
theorem api_ssl_key_cert_never_checked :
    (APISSLConfig.construct fsEmpty
      ⟨"/missing/key.pem", "/missing/cert.pem", false, "", "auto", ""⟩).isOk
        = true ∧
    fsEmpty.isfile "/missing/key.pem" = false ∧
    fsEmpty.isfile "/missing/cert.pem" = false := by decide

/-- C5: every `SSLConfig` (server SSL) construction checks `key`, `cert`
and `ca` unconditionally; a missing file in any one of the three
independently causes construction failure with an error naming that
field. -/
theorem server_ssl_missing_file_fails_naming_field (fs : FileSystem)
    (raw : RawSSLConfig) :
    (fs.isfile raw.key = false →
      ∃ errs, SSLConfig.construct fs raw = .error (.fields errs) ∧
        FieldError.mk "key" raw.key ∈ errs) ∧
    (fs.isfile raw.cert = false →
      ∃ errs, SSLConfig.construct fs raw = .error (.fields errs) ∧
        FieldError.mk "cert" raw.cert ∈ errs) ∧
    (fs.isfile raw.ca = false →
      ∃ errs, SSLConfig.construct fs raw = .error (.fields errs) ∧
        FieldError.mk "ca" raw.ca ∈ errs) :=
  ⟨fun h => server_construct_error_of_mem fs raw _ (mem_fieldErrors_key fs raw h),
    fun h => server_construct_error_of_mem fs raw _ (mem_fieldErrors_cert fs raw h),
    fun h => server_construct_error_of_mem fs raw _ (mem_fieldErrors_ca fs raw h)⟩

/-- C5 witness: on the empty filesystem, a server SSL config whose `key`
path is missing fails with an error naming `key`. -/
theorem server_ssl_missing_file_fails_naming_field_witness :
    ∃ errs, SSLConfig.construct fsEmpty ⟨"k", "c", "a", ""⟩ =
        .error (.fields errs) ∧
      FieldError.mk "key" "k" ∈ errs :=
  (server_ssl_missing_file_fails_naming_field fsEmpty ⟨"k", "c", "a", ""⟩).1
    (by decide)

/-- C6: `APISSLConfig.ssl_protocol` accepts exactly the five case-sensitive
strings `TLS`, `TLSv1`, `TLSv1.1`, `TLSv1.2`, `auto`: any other raw string
makes the construction fail, and (in a context where the only other
validated field, `ca`, is not checked because `use_ca` is false)
construction succeeds exactly when the raw string is one of the five. -/
theorem api_ssl_protocol_exactly_five (fs : FileSystem)
    (raw : RawAPISSLConfig) :
    (raw.ssl_protocol ∉ (["TLS", "TLSv1", "TLSv1.1", "TLSv1.2", "auto"] :
        List String) →
      (APISSLConfig.construct fs raw).isOk = false) ∧
    (raw.use_ca = false →
      ((APISSLConfig.construct fs raw).isOk = true ↔
        raw.ssl_protocol ∈ (["TLS", "TLSv1", "TLSv1.1", "TLSv1.2", "auto"] :
          List String))) := by
  constructor
  · intro hmem
    have hp : SSLProtocol.parse raw.ssl_protocol = none := by
      rcases hpp : SSLProtocol.parse raw.ssl_protocol with _ | pr
      · rfl
      · exact absurd ((parse_isSome_iff raw.ssl_protocol).mp (by simp [hpp]))
          hmem
    unfold APISSLConfig.construct
    rw [hp]
    rfl
  · intro h
    rw [api_construct_isOk fs raw h]
    exact parse_isSome_iff raw.ssl_protocol

/-- C6 witness: with `use_ca = false`, the protocol string `TLSv1.3` is
rejected and `auto` is accepted. -/
theorem api_ssl_protocol_exactly_five_witness :
    (APISSLConfig.construct fsEmpty
      ⟨"k", "c", false, "", "TLSv1.3", ""⟩).isOk = false ∧
    (APISSLConfig.construct fsEmpty
      ⟨"k", "c", false, "", "auto", ""⟩).isOk = true :=
  ⟨(api_ssl_protocol_exactly_five fsEmpty
      ⟨"k", "c", false, "", "TLSv1.3", ""⟩).1 (by decide),
    ((api_ssl_protocol_exactly_five fsEmpty
      ⟨"k", "c", false, "", "auto", ""⟩).2 rfl).mpr (by decide)⟩

/-- C7: for an `APISSLConfig` input whose `ca` path is missing (and whose
protocol string is valid), construction succeeds when `use_ca` is false and
fails when `use_ca` is true with the same `ca` path. -/
theorem api_ssl_ca_checked_only_with_use_ca (fs : FileSystem)
    (raw : RawAPISSLConfig) (hca : fs.isfile raw.ca = false)
    (hp : (SSLProtocol.parse raw.ssl_protocol).isSome = true) :
    (APISSLConfig.construct fs { raw with use_ca := false }).isOk = true ∧
    (APISSLConfig.construct fs { raw with use_ca := true }).isOk = false := by
  constructor
  · rw [api_construct_isOk fs _ rfl]
    exact hp
  · unfold APISSLConfig.construct APISSLConfig.validate_ca_file
    rcases hpp : SSLProtocol.parse raw.ssl_protocol with _ | pr
    · rw [hpp] at hp; exact absurd hp (by simp)
    · simp [validate_file_path, hca, hpp]

/-- C7 witness: on the empty filesystem with `ca = "noca"`, construction
succeeds with `use_ca = false` and fails with `use_ca = true`. -/
theorem api_ssl_ca_checked_only_with_use_ca_witness :
    (APISSLConfig.construct fsEmpty
      ⟨"k", "c", false, "noca", "auto", ""⟩).isOk = true ∧
    (APISSLConfig.construct fsEmpty
      ⟨"k", "c", true, "noca", "auto", ""⟩).isOk = false := by
  have h := api_ssl_ca_checked_only_with_use_ca fsEmpty
    ⟨"k", "c", false, "noca", "auto", ""⟩ (by decide) (by decide)
  exact h

/-- C4: with `use_ssl = false`, an `IndexerSSLConfig` construction succeeds
whatever the `key`, `certificate` and `certificate_authorities` paths are
(no existence check runs), and the filesystem — in particular the bundle
file at the fixed path — is left completely unmodified. -/
theorem indexer_no_ssl_skips_checks_and_bundle (fs : FileSystem)
    (raw : RawIndexerSSLConfig) (h : raw.use_ssl = false)
    (hne : raw.certificate_authorities ≠ []) :
    (IndexerSSLConfig.construct fs raw).1 = fs ∧
    (IndexerSSLConfig.construct fs raw).2.isOk = true ∧
    (IndexerSSLConfig.construct fs raw).1.content WAZUH_INDEXER_CA_BUNDLE =
      fs.content WAZUH_INDEXER_CA_BUNDLE := by
  have hlen : ¬ raw.certificate_authorities.length < 1 := by
    cases hcas : raw.certificate_authorities with
    | nil => exact absurd hcas hne
    | cons a l => simp [hcas]
  have hc : IndexerSSLConfig.construct fs raw =
      (fs, .ok ⟨raw.use_ssl, raw.key, raw.certificate,
        raw.certificate_authorities, raw.verify_certificates,
        raw.certificate_authorities_bundle⟩) := by
    unfold IndexerSSLConfig.construct IndexerSSLConfig.validate_ssl_files
      IndexerSSLConfig.validate_ca_files
    rw [h, if_neg hlen]
    simp
  rw [hc]
  exact ⟨rfl, rfl, rfl⟩

/-- C4 witness: the construction with nonexistent key, certificate and CA
paths succeeds on the empty filesystem and leaves it untouched. -/
theorem indexer_no_ssl_skips_checks_and_bundle_witness :
    (IndexerSSLConfig.construct fsEmpty
      { rawMissingCA with use_ssl := false }).1 = fsEmpty ∧
    (IndexerSSLConfig.construct fsEmpty
      { rawMissingCA with use_ssl := false }).2.isOk = true ∧
    (IndexerSSLConfig.construct fsEmpty
      { rawMissingCA with use_ssl := false }).1.content
        WAZUH_INDEXER_CA_BUNDLE =
      fsEmpty.content WAZUH_INDEXER_CA_BUNDLE :=
  indexer_no_ssl_skips_checks_and_bundle fsEmpty
    { rawMissingCA with use_ssl := false } (by decide) (by decide)

/-- C2: with `use_ssl = true` and at least one `certificate_authorities`
entry missing, the `IndexerSSLConfig` construction fails and the
filesystem is unchanged: every entry is checked before any bundle write
begins, so no partial bundle is produced. -/
theorem indexer_missing_ca_aborts_without_bundle_write (fs : FileSystem)
    (raw : RawIndexerSSLConfig) (hssl : raw.use_ssl = true)
    (hmiss : raw.certificate_authorities.any
      (fun p => !fs.isfile p) = true) :
    (IndexerSSLConfig.construct fs raw).1 = fs ∧
    (IndexerSSLConfig.construct fs raw).2.isOk = false := by
  obtain ⟨q, hq, hqv⟩ := List.any_eq_true.mp hmiss
  rcases hr : raw.certificate_authorities.find? (fun p => !fs.isfile p)
    with _ | r
  case none =>
    exact absurd hqv (by simpa using List.find?_eq_none.mp hr q hq)
  have hvcf : IndexerSSLConfig.validate_ca_files fs true
      raw.certificate_authorities =
      (fs, [⟨"certificate_authorities", r⟩], none) := by
    unfold IndexerSSLConfig.validate_ca_files
    simp [hr]
  have hlen : ¬ raw.certificate_authorities.length < 1 := by
    cases hcas : raw.certificate_authorities with
    | nil => rw [hcas] at hq; exact absurd hq (by simp)
    | cons a l => simp [hcas]
  unfold IndexerSSLConfig.construct
  rw [hssl, if_neg hlen, hvcf]
  simp

/-- C2 witness: with the middle CA path missing, construction on `fsABC`
fails and `fsABC` is unchanged. -/
theorem indexer_missing_ca_aborts_without_bundle_write_witness :
    (IndexerSSLConfig.construct fsABC rawMissingCA).1 = fsABC ∧
    (IndexerSSLConfig.construct fsABC rawMissingCA).2.isOk = false :=
  indexer_missing_ca_aborts_without_bundle_write fsABC rawMissingCA
    (by decide) (by decide)

/-- C3 counterexample: an input whose single CA entry is the fixed bundle
path itself, which exists with content `X`.  The claim predicts bundle
content `X` (the concatenation of the listed files' contents), but the
bundle is opened for writing — and truncated — before the entry is read,
so the resulting content is `""`. -/
theorem ca_bundle_concatenation_counterexample :
    rawAlias.use_ssl = true ∧
    (∀ p ∈ rawAlias.certificate_authorities, fsAlias.isfile p = true) ∧
    (IndexerSSLConfig.construct fsAlias rawAlias).1.content
      WAZUH_INDEXER_CA_BUNDLE = some "" ∧
    concatContents fsAlias rawAlias.certificate_authorities = "X" ∧
    ("" : String) ≠ "X" := by decide

/-- C3 (amended): with `use_ssl = true`, all `certificate_authorities`
entries existing and readable, the bundle path writable, and no entry
equal to the fixed bundle path itself, the bundle file written at
`WAZUH_INDEXER_CA_BUNDLE` is exactly the concatenation of the contents of
each listed CA file, in list order, with no separators inserted. -/
theorem ca_bundle_concatenation (fs : FileSystem)
    (raw : RawIndexerSSLConfig) (hssl : raw.use_ssl = true)
    (hex : raw.certificate_authorities.all (fun p => fs.isfile p) = true)
    (hrd : raw.certificate_authorities.all
      (fun p => !(decide (p ∈ fs.readDenied))) = true)
    (hw : WAZUH_INDEXER_CA_BUNDLE ∉ fs.writeDenied)
    (hnb : WAZUH_INDEXER_CA_BUNDLE ∉ raw.certificate_authorities)
    (hne : raw.certificate_authorities ≠ []) :
    (IndexerSSLConfig.construct fs raw).1.content WAZUH_INDEXER_CA_BUNDLE =
      some (concatContents fs raw.certificate_authorities) := by
  have hex' : ∀ p ∈ raw.certificate_authorities, fs.isfile p = true := by
    intro p hp
    exact List.all_eq_true.mp hex p hp
  have hrd' : ∀ p ∈ raw.certificate_authorities, p ∉ fs.readDenied := by
    intro p hp
    have := List.all_eq_true.mp hrd p hp
    simpa using this
  have hlen : ¬ raw.certificate_authorities.length < 1 := by
    cases hcas : raw.certificate_authorities with
    | nil => exact absurd hcas hne
    | cons a l => simp [hcas]
  rw [indexer_construct_fst, if_neg hlen, hssl,
    validate_ca_files_ok fs _ hex' hrd' hw]
  rw [content_setFile_self]
  congr 1
  apply concatContents_congr
  intro p hp
  exact content_setFile_ne _ _ _ _ (fun h => hnb (h ▸ hp))

/-- C3 witness: three CA files containing `A`, `B`, `C` yield bundle
content exactly `ABC`. -/
theorem ca_bundle_concatenation_witness :
    (IndexerSSLConfig.construct fsABC rawABC).1.content
      WAZUH_INDEXER_CA_BUNDLE = some "ABC" := by
  have h := ca_bundle_concatenation fsABC rawABC (by decide) (by decide)
    (by decide) (by decide) (by decide) (by decide)
  rw [h]
  decide

/-- C8: every failure of CA-bundle assembly — an I/O error opening or
reading a listed input file, or opening the bundle output for writing —
aborts the operation and surfaces as an error with the distinct stable
code 1006 carrying the underlying I/O error message (a `WazuhError`,
type-distinct from the `FieldError`s of plain field validation). -/
theorem ca_bundle_io_error_code_1006 (fs : FileSystem)
    (paths : List String) :
    (∀ e, (IndexerSSLConfig.create_ca_bundle fs paths).2 = some e →
      e.code = 1006 ∧
        (e.message =
            "[Errno 13] Permission denied: " ++ WAZUH_INDEXER_CA_BUNDLE ∨
          ∃ p ∈ paths,
            e.message =
              ioErrorMessage (fs.setFile WAZUH_INDEXER_CA_BUNDLE "") p)) ∧
    ((WAZUH_INDEXER_CA_BUNDLE ∈ fs.writeDenied ∨
        ∃ p ∈ paths,
          (fs.setFile WAZUH_INDEXER_CA_BUNDLE "").readable p = false) →
      ∃ msg, (IndexerSSLConfig.create_ca_bundle fs paths).2 =
        some ⟨1006, msg⟩) := by
  constructor
  · exact fun e h => create_ca_bundle_error fs paths e h
  · intro h
    have hsome := create_ca_bundle_fails fs paths h
    rcases ho : (IndexerSSLConfig.create_ca_bundle fs paths).2 with _ | e
    · rw [ho] at hsome; exact absurd hsome (by simp)
    · rcases e with ⟨c, m⟩
      have h6 : c = 1006 := (create_ca_bundle_error fs paths ⟨c, m⟩ ho).1
      exact ⟨m, by rw [h6]⟩

/-- C8 witness: assembling a bundle from a nonexistent input path yields a
code-1006 error. -/
theorem ca_bundle_io_error_code_1006_witness :
    ∃ msg, (IndexerSSLConfig.create_ca_bundle fsEmpty ["gone"]).2 =
      some ⟨1006, msg⟩ :=
  (ca_bundle_io_error_code_1006 fsEmpty ["gone"]).2
    (Or.inr ⟨"gone", by decide, by decide⟩)

/-- C9: running `IndexerSSLConfig` validation twice with identical,
unchanged, existing (and accessible) inputs produces a bundle file with
identical content both times. -/
theorem ca_bundle_idempotent (fs : FileSystem) (raw : RawIndexerSSLConfig)
    (hssl : raw.use_ssl = true)
    (hex : raw.certificate_authorities.all (fun p => fs.isfile p) = true)
    (hrd : raw.certificate_authorities.all
      (fun p => !(decide (p ∈ fs.readDenied))) = true)
    (hw : WAZUH_INDEXER_CA_BUNDLE ∉ fs.writeDenied) :
    (IndexerSSLConfig.construct
      ((IndexerSSLConfig.construct fs raw).1) raw).1.content
        WAZUH_INDEXER_CA_BUNDLE =
      (IndexerSSLConfig.construct fs raw).1.content
        WAZUH_INDEXER_CA_BUNDLE := by
  have hex' : ∀ p ∈ raw.certificate_authorities, fs.isfile p = true := by
    intro p hp
    exact List.all_eq_true.mp hex p hp
  have hrd' : ∀ p ∈ raw.certificate_authorities, p ∉ fs.readDenied := by
    intro p hp
    have := List.all_eq_true.mp hrd p hp
    simpa using this
  by_cases hlen : raw.certificate_authorities.length < 1
  · have h1 : (IndexerSSLConfig.construct fs raw).1 = fs := by
      rw [indexer_construct_fst, if_pos hlen]
    rw [h1, h1]
  · have h1 : (IndexerSSLConfig.construct fs raw).1 =
        (fs.setFile WAZUH_INDEXER_CA_BUNDLE "").setFile
          WAZUH_INDEXER_CA_BUNDLE
          (concatContents (fs.setFile WAZUH_INDEXER_CA_BUNDLE "")
            raw.certificate_authorities) := by
      rw [indexer_construct_fst, if_neg hlen, hssl,
        validate_ca_files_ok fs _ hex' hrd' hw]
    have hex₁ : ∀ p ∈ raw.certificate_authorities,
        ((IndexerSSLConfig.construct fs raw).1).isfile p = true := by
      intro p hp
      rw [h1]
      unfold FileSystem.isfile
      rw [content_setFile]
      by_cases hpw : p = WAZUH_INDEXER_CA_BUNDLE
      · simp [hpw]
      · rw [if_neg hpw, content_setFile_ne _ _ _ _ hpw]
        exact hex' p hp
    have hrd₁ : ∀ p ∈ raw.certificate_authorities,
        p ∉ ((IndexerSSLConfig.construct fs raw).1).readDenied := by
      intro p hp
      rw [h1]
      exact hrd' p hp
    have hw₁ : WAZUH_INDEXER_CA_BUNDLE ∉
        ((IndexerSSLConfig.construct fs raw).1).writeDenied := by
      rw [h1]
      exact hw
    have h2 : (IndexerSSLConfig.construct
        ((IndexerSSLConfig.construct fs raw).1) raw).1 =
        (((IndexerSSLConfig.construct fs raw).1).setFile
            WAZUH_INDEXER_CA_BUNDLE "").setFile WAZUH_INDEXER_CA_BUNDLE
          (concatContents
            (((IndexerSSLConfig.construct fs raw).1).setFile
              WAZUH_INDEXER_CA_BUNDLE "") raw.certificate_authorities) := by
      rw [indexer_construct_fst, if_neg hlen, hssl,
        validate_ca_files_ok _ _ hex₁ hrd₁ hw₁]
    have hcc : concatContents
        (((IndexerSSLConfig.construct fs raw).1).setFile
          WAZUH_INDEXER_CA_BUNDLE "") raw.certificate_authorities =
        concatContents (fs.setFile WAZUH_INDEXER_CA_BUNDLE "")
          raw.certificate_authorities := by
      apply concatContents_congr
      intro p hp
      by_cases hpw : p = WAZUH_INDEXER_CA_BUNDLE
      · subst hpw; rw [content_setFile_self, content_setFile_self]
      · rw [content_setFile_ne _ _ _ _ hpw, content_setFile_ne _ _ _ _ hpw,
          h1, content_setFile_ne _ _ _ _ hpw, content_setFile_ne _ _ _ _ hpw]
    rw [h2, hcc, content_setFile_self, h1, content_setFile_self]

/-- C9 witness: re-running the `fsABC` construction on its own output
state yields the same bundle content. -/
theorem ca_bundle_idempotent_witness :
    (IndexerSSLConfig.construct
      ((IndexerSSLConfig.construct fsABC rawABC).1) rawABC).1.content
        WAZUH_INDEXER_CA_BUNDLE =
      (IndexerSSLConfig.construct fsABC rawABC).1.content
        WAZUH_INDEXER_CA_BUNDLE :=
  ca_bundle_idempotent fsABC rawABC (by decide) (by decide) (by decide)
    (by decide)

/-- C10: the resulting filesystem state of an `IndexerSSLConfig`
construction does not depend on the `certificate_authorities_bundle` field
value at all, and every path other than the fixed module constant
`WAZUH_INDEXER_CA_BUNDLE` is left unchanged: the bundle is only ever
written at the fixed constant path. -/
theorem bundle_written_to_fixed_path_only (fs : FileSystem)
    (raw : RawIndexerSSLConfig) (v₁ v₂ : String) :
    ((IndexerSSLConfig.construct fs
        { raw with certificate_authorities_bundle := v₁ }).1 =
      (IndexerSSLConfig.construct fs
        { raw with certificate_authorities_bundle := v₂ }).1) ∧
    (∀ p, p ≠ WAZUH_INDEXER_CA_BUNDLE →
      (IndexerSSLConfig.construct fs raw).1.content p = fs.content p) := by
  constructor
  · rw [indexer_construct_fst, indexer_construct_fst]
  · intro p hp
    rw [indexer_construct_fst]
    by_cases hlen : raw.certificate_authorities.length < 1
    · rw [if_pos hlen]
    · rw [if_neg hlen]
      exact validate_ca_files_fst_content fs raw.use_ssl _ p hp

/-- C10 witness: two different `certificate_authorities_bundle` values
yield the same filesystem state, and the CA file `a` is untouched by the
construction. -/
theorem bundle_written_to_fixed_path_only_witness :
    ((IndexerSSLConfig.construct fsABC
        { rawABC with certificate_authorities_bundle := "/tmp/other" }).1 =
      (IndexerSSLConfig.construct fsABC
        { rawABC with certificate_authorities_bundle := "/elsewhere" }).1) ∧
    (IndexerSSLConfig.construct fsABC rawABC).1.content "a" =
      fsABC.content "a" :=
  ⟨(bundle_written_to_fixed_path_only fsABC rawABC "/tmp/other"
      "/elsewhere").1,
    (bundle_written_to_fixed_path_only fsABC rawABC "/tmp/other"
      "/elsewhere").2 "a" (by decide)⟩

end WazuhSSL
